import Mathlib

/-!
# Verification of the public-radio-x server core

Shallow embedding of the server's service layer:

* `src/server/src/services/favoriteService.ts` — favorites CRUD over the
  `user_favorites` table,
* `src/server/src/services/stationListService.ts` — station-list CRUD over the
  `user_station_lists` and `station_list_items` tables,
* `src/server/src/services/radioBrowserService.ts` — the Redis-backed cache in
  front of the Radio-Browser directory API.

The relational store is modelled as lists of rows; each SQL statement used by
the services is translated row-by-row (filters, conditional inserts with
`ON CONFLICT DO NOTHING`, deletes with row counts, cascading deletes as in the
schema's `ON DELETE CASCADE`).  Fallible database / Redis / HTTP calls are
modelled with explicit failure flags or `Except`-valued environments, so that
every error path of the TypeScript code has a counterpart here.
-/

/-! ## JavaScript `String.prototype.trim`

`stationListService.ts` stores `listName.trim()` / `newName.trim()`.  We model
trimming over the character list of the string: drop leading whitespace, then
drop trailing whitespace. -/

/-- Drop leading and trailing whitespace from a character list, as
JavaScript's `trim` does on the code units of a string. -/
def trimChars (l : List Char) : List Char :=
  ((l.dropWhile Char.isWhitespace).reverse.dropWhile Char.isWhitespace).reverse

/-- Model of JavaScript `s.trim()`. -/
def jsTrim (s : String) : String :=
  ⟨trimChars s.data⟩

/-- A string is trimmed when trimming it changes nothing. -/
def IsTrimmed (s : String) : Prop :=
  jsTrim s = s

instance (s : String) : Decidable (IsTrimmed s) := by
  unfold IsTrimmed; infer_instance

theorem dropWhile_head_false {α : Type} (p : α → Bool) (l : List α) {x : α}
    {xs : List α} (h : l.dropWhile p = x :: xs) : p x = false := by
  induction l with
  | nil => simp [List.dropWhile] at h
  | cons a as ih =>
    by_cases hpa : p a = true
    · rw [List.dropWhile_cons_of_pos hpa] at h
      exact ih h
    · rw [List.dropWhile_cons_of_neg hpa] at h
      cases h
      simpa using hpa

theorem dropWhile_dropWhile {α : Type} (p : α → Bool) (l : List α) :
    (l.dropWhile p).dropWhile p = l.dropWhile p := by
  cases h : l.dropWhile p with
  | nil => simp
  | cons x xs =>
    rw [List.dropWhile_cons_of_neg]
    simp [dropWhile_head_false p l h]

theorem head_mem_dropWhile_false {α : Type} (p : α → Bool) (l : List α) :
    ∀ x ∈ (l.dropWhile p).head?, p x = false := by
  intro x hx
  cases h : l.dropWhile p with
  | nil => rw [h] at hx; simp at hx
  | cons y ys =>
    rw [h] at hx
    simp at hx
    subst hx
    exact dropWhile_head_false p l h

theorem getLast_mem_dropWhile {α : Type} (p : α → Bool) (l : List α) :
    ∀ x ∈ (l.dropWhile p).getLast?, x ∈ l.getLast? := by
  induction l with
  | nil => simp
  | cons a as ih =>
    intro x hx
    by_cases hpa : p a = true
    · rw [List.dropWhile_cons_of_pos hpa] at hx
      have hmem := ih x hx
      cases as with
      | nil => simp at hmem
      | cons b bs =>
        rwa [List.getLast?_cons_cons]
    · rwa [List.dropWhile_cons_of_neg hpa] at hx

theorem dropWhile_eq_self_of_head {α : Type} (p : α → Bool) (l : List α)
    (h : ∀ x ∈ l.head?, p x = false) : l.dropWhile p = l := by
  cases l with
  | nil => simp
  | cons a as =>
    rw [List.dropWhile_cons_of_neg]
    simp only [List.head?_cons, Option.mem_def, Option.some.injEq] at h
    simp [h a rfl]

theorem head_trimChars (l : List Char) :
    ∀ x ∈ (trimChars l).head?, x.isWhitespace = false := by
  intro x hx
  unfold trimChars at hx
  rw [List.head?_reverse] at hx
  have hmem := getLast_mem_dropWhile Char.isWhitespace
      (l.dropWhile Char.isWhitespace).reverse x hx
  rw [List.getLast?_reverse] at hmem
  exact head_mem_dropWhile_false Char.isWhitespace l x hmem

theorem getLast_trimChars (l : List Char) :
    ∀ x ∈ (trimChars l).getLast?, x.isWhitespace = false := by
  intro x hx
  unfold trimChars at hx
  rw [List.getLast?_reverse] at hx
  exact head_mem_dropWhile_false Char.isWhitespace
      (l.dropWhile Char.isWhitespace).reverse x hx

theorem trimChars_idem (l : List Char) : trimChars (trimChars l) = trimChars l := by
  have h1 : (trimChars l).dropWhile Char.isWhitespace = trimChars l :=
    dropWhile_eq_self_of_head _ _ (head_trimChars l)
  have h2 : (trimChars l).reverse.dropWhile Char.isWhitespace = (trimChars l).reverse := by
    apply dropWhile_eq_self_of_head
    intro x hx
    rw [List.head?_reverse] at hx
    exact getLast_trimChars l x hx
  unfold trimChars at h1 h2 ⊢
  rw [h1, h2, List.reverse_reverse]

theorem jsTrim_isTrimmed (s : String) : IsTrimmed (jsTrim s) := by
  unfold IsTrimmed jsTrim
  simp [trimChars_idem]

/-! ## Error taxonomy

Both services throw plain `Error`s whose messages distinguish validation
failures from database (store) failures; the spec's taxonomy calls these
`ValidationError` and `StoreError`.  We keep the exact message strings. -/

/-- An error thrown by a service function: a `ValidationError` (malformed
input) or a `StoreError` (a database query failed). -/
inductive SvcError where
  | validation (msg : String)
  | store (msg : String)
deriving DecidableEq, Repr

/-! ## Favorite service (`favoriteService.ts`)

The `user_favorites` table (`UNIQUE(user_id, stationuuid)`) is modelled as a
list of rows; the unique constraint is the hypothesis `db.Nodup` where used.
Each `db.query(...)` call can fail; the `fail*` flags inject those failures. -/

/-- A row of `user_favorites`: the pair the service reads and writes. -/
structure FavRow where
  user_id : String
  stationuuid : String
deriving DecidableEq, Repr

/-- The `user_favorites` table. -/
abbrev FavDB := List FavRow

/-- `SELECT stationuuid FROM user_favorites WHERE user_id = $1`. -/
def selectFavorites (db : FavDB) (userId : String) : List String :=
  (db.filter (fun r => r.user_id == userId)).map (·.stationuuid)

/-- `INSERT INTO user_favorites (user_id, stationuuid) VALUES ($1, $2)
ON CONFLICT (user_id, stationuuid) DO NOTHING`: a conflicting insert is a
no-op, otherwise the row is appended. -/
def insertFavorite (db : FavDB) (userId stationId : String) : FavDB :=
  if (⟨userId, stationId⟩ : FavRow) ∈ db then db else db ++ [⟨userId, stationId⟩]

/-- `DELETE FROM user_favorites WHERE user_id = $1 AND stationuuid = $2
RETURNING stationuuid`: the remaining table and the affected row count. -/
def deleteFavorite (db : FavDB) (userId stationId : String) : FavDB × Nat :=
  ((db.filter fun r => !(r.user_id == userId && r.stationuuid == stationId)),
   (db.filter fun r => r.user_id == userId && r.stationuuid == stationId).length)

/-- `getFavorites(userId)`: reads the user's favorite station UUIDs; a failed
query is rethrown as a store error with this exact message. -/
def getFavorites (failRead : Bool) (db : FavDB) (userId : String) :
    Except SvcError (List String) :=
  if failRead then .error (.store "Database error while fetching favorites.")
  else .ok (selectFavorites db userId)

/-- `addFavorite(userId, stationId)`: validates the station id, inserts with
`ON CONFLICT DO NOTHING`, then returns `getFavorites(userId)`.  The read-back
promise is returned without `await`, so a read-back failure reaches the caller
with `getFavorites`' own store-error message. -/
def addFavorite (failInsert failRead : Bool) (db : FavDB)
    (userId stationId : String) : Except SvcError (FavDB × List String) :=
  if stationId = "" then .error (.validation "stationId is required.")
  else if failInsert then .error (.store "Database error while adding favorite.")
  else
    let db1 := insertFavorite db userId stationId
    match getFavorites failRead db1 userId with
    | .error e => .error e
    | .ok lst => .ok (db1, lst)

/-- The value `removeFavorite` resolves to. -/
structure RemoveFavoriteResult where
  updatedFavorites : List String
  success : Bool
deriving DecidableEq, Repr

/-- `removeFavorite(userId, stationId)`: validates, deletes the pair, reads
the list back (inside the same `try`, so a read-back failure is rewrapped as
the delete-path store error), and reports `success` iff `rowCount > 0`. -/
def removeFavorite (failDelete failRead : Bool) (db : FavDB)
    (userId stationId : String) :
    Except SvcError (FavDB × RemoveFavoriteResult) :=
  if stationId = "" then .error (.validation "stationId is required for removal.")
  else if failDelete then .error (.store "Database error while deleting favorite.")
  else
    let del := deleteFavorite db userId stationId
    match getFavorites failRead del.1 userId with
    | .error _ => .error (.store "Database error while deleting favorite.")
    | .ok lst => .ok (del.1, ⟨lst, decide (del.2 > 0)⟩)

theorem insertFavorite_mem (db : FavDB) (u s : String) :
    (⟨u, s⟩ : FavRow) ∈ insertFavorite db u s := by
  unfold insertFavorite
  by_cases h : (⟨u, s⟩ : FavRow) ∈ db
  · rw [if_pos h]; exact h
  · simp [h]

theorem insertFavorite_nodup (db : FavDB) (u s : String) (h : db.Nodup) :
    (insertFavorite db u s).Nodup := by
  unfold insertFavorite
  by_cases hm : (⟨u, s⟩ : FavRow) ∈ db
  · simpa [hm]
  · simp [hm, List.nodup_append, h]

theorem selectFavorites_count (db : FavDB) (u s : String) :
    (selectFavorites db u).count s = db.count ⟨u, s⟩ := by
  unfold selectFavorites
  induction db with
  | nil => simp
  | cons r rs ih =>
    rcases r with ⟨ru, ruuid⟩
    by_cases hu : ru = u <;> by_cases hs : ruuid = s <;>
      simp [List.filter_cons, List.count_cons, hu, hs, ih, FavRow.mk.injEq]

theorem insertFavorite_already (db : FavDB) (u s : String)
    (h : (⟨u, s⟩ : FavRow) ∈ db) : insertFavorite db u s = db := by
  unfold insertFavorite
  simp [h]

/-- C1: for every user `u` and non-empty station UUID `s`, adding a favorite
twice in succession yields the same final table as adding it once; the second
call is not an error, and both calls return the same full favorite list, in
which `s` occurs exactly once.  The `db.Nodup` hypothesis is the
`UNIQUE(user_id, stationuuid)` constraint of the schema. -/
theorem addFavorite_idempotent (db : FavDB) (u s : String)
    (hs : s ≠ "") (hnd : db.Nodup) :
    ∃ db1 lst1,
      addFavorite false false db u s = .ok (db1, lst1) ∧
      addFavorite false false db1 u s = .ok (db1, lst1) ∧
      lst1 = selectFavorites db1 u ∧
      lst1.count s = 1 := by
  refine ⟨insertFavorite db u s, selectFavorites (insertFavorite db u s) u,
    ?_, ?_, rfl, ?_⟩
  · simp [addFavorite, getFavorites, hs]
  · have heq := insertFavorite_already (insertFavorite db u s) u s
      (insertFavorite_mem db u s)
    simp [addFavorite, getFavorites, hs, heq]
  · rw [selectFavorites_count]
    exact List.count_eq_one_of_mem (insertFavorite_nodup db u s hnd)
      (insertFavorite_mem db u s)

/-- Witness for C1 at a concrete input: empty table, user `"u1"`,
station `"s1"`. -/
theorem addFavorite_idempotent_witness :
    ∃ db1 lst1,
      addFavorite false false [] "u1" "s1" = .ok (db1, lst1) ∧
      addFavorite false false db1 "u1" "s1" = .ok (db1, lst1) ∧
      lst1 = selectFavorites db1 "u1" ∧
      lst1.count "s1" = 1 :=
  addFavorite_idempotent [] "u1" "s1" (by decide) (by simp)

/-- C9: if the insert succeeds (fresh row or ignored duplicate conflict) but
the read-back of the full favorite list fails, `addFavorite` fails with a
store error; and whenever `addFavorite` succeeds, the list it returns is the
freshly read-back favorite list of the post-state. -/
theorem addFavorite_readback_StoreError (db : FavDB) (u s : String)
    (hs : s ≠ "") :
    addFavorite false true db u s
      = .error (.store "Database error while fetching favorites.") ∧
    ∀ fi fr (db' : FavDB) lst, addFavorite fi fr db u s = .ok (db', lst) →
      lst = selectFavorites db' u := by
  constructor
  · simp [addFavorite, getFavorites, hs]
  · intro fi fr db' lst h
    unfold addFavorite at h
    rw [if_neg hs] at h
    cases fi with
    | true => simp at h
    | false =>
      cases fr with
      | true => simp [getFavorites] at h
      | false =>
        simp [getFavorites] at h
        rw [← h.1, h.2]

/-- Witness for C9 at a concrete input where the insert is an ignored
duplicate conflict. -/
theorem addFavorite_readback_StoreError_witness :
    addFavorite false true [⟨"u1", "s1"⟩] "u1" "s1"
      = .error (.store "Database error while fetching favorites.") ∧
    ∀ fi fr (db' : FavDB) lst,
      addFavorite fi fr [⟨"u1", "s1"⟩] "u1" "s1" = .ok (db', lst) →
      lst = selectFavorites db' "u1" :=
  addFavorite_readback_StoreError [⟨"u1", "s1"⟩] "u1" "s1" (by decide)

/-! ## Station list service (`stationListService.ts`)

Tables: `user_station_lists` (`list_id SERIAL PRIMARY KEY`) and
`station_list_items` (`UNIQUE(list_id, stationuuid)`, foreign key
`list_id REFERENCES user_station_lists ON DELETE CASCADE`).  The claims about
this service concern its success-path row logic, so the model lets every
query succeed except where the service itself throws a validation error. -/

/-- A row of `user_station_lists`. -/
structure ListRow where
  list_id : Nat
  user_id : String
  list_name : String
  created_at : Nat
deriving DecidableEq, Repr

/-- A row of `station_list_items`. -/
structure ItemRow where
  list_id : Nat
  stationuuid : String
deriving DecidableEq, Repr

/-- The two tables the station-list service reads and writes. -/
structure ListsDB where
  lists : List ListRow
  items : List ItemRow
deriving DecidableEq, Repr

/-- The resolved `StationList` view the service returns
(`{id, name, createdAt, stationIds}`). -/
structure StationList where
  id : Nat
  name : String
  createdAt : Nat
  stationIds : List String
deriving DecidableEq, Repr

/-- `getStationUuidsForList`: `SELECT stationuuid FROM station_list_items
WHERE list_id = $1`. -/
def getStationUuidsForList (db : ListsDB) (listId : Nat) : List String :=
  (db.items.filter fun it => it.list_id == listId).map (·.stationuuid)

/-- `createStationList(userId, listName)`: validates that the name is
non-empty after trimming, inserts the trimmed name, and returns the new list
with an empty member list.  `newId` stands for the value generated by the
`SERIAL` primary-key column and `createdAt` for the row's `NOW()`. -/
def createStationList (db : ListsDB) (newId createdAt : Nat)
    (userId listName : String) : Except SvcError (ListsDB × StationList) :=
  if jsTrim listName = "" then
    .error (.validation "List name is required and must be a non-empty string")
  else
    .ok ({ db with lists := db.lists ++ [⟨newId, userId, jsTrim listName, createdAt⟩] },
         ⟨newId, jsTrim listName, createdAt, []⟩)

/-- `getStationListDetails(userId, listId)`: `SELECT ... WHERE list_id = $1
AND user_id = $2`; `null` when no owned row exists, otherwise the resolved
view with the list's member station UUIDs. -/
def getStationListDetails (db : ListsDB) (userId : String) (listId : Nat) :
    Option StationList :=
  match db.lists.filter (fun r => r.list_id == listId && r.user_id == userId) with
  | [] => none
  | row :: _ =>
    some ⟨row.list_id, row.list_name, row.created_at,
          getStationUuidsForList db row.list_id⟩

/-- `updateStationListName(userId, listId, newName)`: validates the new name,
runs `UPDATE ... SET list_name = $1 WHERE list_id = $2 AND user_id = $3
RETURNING ...`, and returns `null` when the update affected no row, otherwise
the resolved updated view. -/
def updateStationListName (db : ListsDB) (userId : String) (listId : Nat)
    (newName : String) : Except SvcError (ListsDB × Option StationList) :=
  if jsTrim newName = "" then
    .error (.validation "New list name is required and must be a non-empty string")
  else
    let db1 : ListsDB := { db with lists := db.lists.map fun r =>
      if r.list_id == listId && r.user_id == userId
      then { r with list_name := jsTrim newName } else r }
    match db.lists.filter (fun r => r.list_id == listId && r.user_id == userId) with
    | [] => .ok (db1, none)
    | row :: _ =>
      .ok (db1, some ⟨row.list_id, jsTrim newName, row.created_at,
                      getStationUuidsForList db1 row.list_id⟩)

/-- `deleteStationList(userId, listId)`: `DELETE ... WHERE list_id = $1 AND
user_id = $2`; the schema's `ON DELETE CASCADE` removes the items of every
deleted list row; the result is `rowCount > 0`. -/
def deleteStationList (db : ListsDB) (userId : String) (listId : Nat) :
    ListsDB × Bool :=
  let deleted := db.lists.filter fun r => r.list_id == listId && r.user_id == userId
  let deletedIds := deleted.map (·.list_id)
  ({ lists := db.lists.filter fun r => !(r.list_id == listId && r.user_id == userId),
     items := db.items.filter fun it => !(deletedIds.contains it.list_id) },
   decide (deleted.length > 0))

/-- `addStationToList(userId, listId, stationId)`: validates the station id,
checks ownership with a separate `SELECT`, then inserts the membership with
`ON CONFLICT (list_id, stationuuid) DO NOTHING` and returns the resolved
details. -/
def addStationToList (db : ListsDB) (userId : String) (listId : Nat)
    (stationId : String) : Except SvcError (ListsDB × Option StationList) :=
  if stationId = "" then
    .error (.validation "stationId (stationuuid) is required")
  else if (db.lists.filter fun r =>
      r.list_id == listId && r.user_id == userId).length = 0 then
    .ok (db, none)
  else
    let db1 : ListsDB :=
      if (⟨listId, stationId⟩ : ItemRow) ∈ db.items then db
      else { db with items := db.items ++ [⟨listId, stationId⟩] }
    .ok (db1, getStationListDetails db1 userId listId)

/-- `removeStationFromList(userId, listId, stationId)`: validates, resolves
the list first (ownership check), deletes the membership row if present, and
returns the re-resolved details together with `rowCount > 0`. -/
def removeStationFromList (db : ListsDB) (userId : String) (listId : Nat)
    (stationId : String) :
    Except SvcError (ListsDB × (Option StationList × Bool)) :=
  if stationId = "" then
    .error (.validation "stationId (stationuuid) for removal is required")
  else
    match getStationListDetails db userId listId with
    | none => .ok (db, (none, false))
    | some _ =>
      let rowCount := (db.items.filter fun it =>
          it.list_id == listId && it.stationuuid == stationId).length
      let db1 : ListsDB := { db with items := db.items.filter fun it =>
          !(it.list_id == listId && it.stationuuid == stationId) }
      .ok (db1, (getStationListDetails db1 userId listId, decide (rowCount > 0)))

theorem filter_not_of_filter_nil {α : Type} (p : α → Bool) (l : List α)
    (h : l.filter p = []) : (l.filter fun a => !p a) = l := by
  rw [List.filter_eq_self]
  intro a ha
  rw [List.filter_eq_nil_iff] at h
  simp [h a ha]

theorem filter_not_then_filter {α : Type} (p : α → Bool) (l : List α) :
    ((l.filter fun a => !p a).filter p) = [] := by
  rw [List.filter_eq_nil_iff]
  intro a ha
  have := (List.mem_filter.mp ha).2
  simp at this
  simp [this]

theorem no_owned_row_filter (db : ListsDB) (A B : String) (lid : Nat)
    (huniq : ∀ r ∈ db.lists, r.list_id = lid → r.user_id = A) (hAB : A ≠ B) :
    db.lists.filter (fun r => r.list_id == lid && r.user_id == B) = [] := by
  rw [List.filter_eq_nil_iff]
  intro r hr
  by_cases hid : r.list_id = lid
  · have hA := huniq r hr hid
    simp [hid, hA]
    intro h
    exact absurd (hA ▸ h) (by simpa [hA] using hAB)
  · simp [hid]

/-- C2: for two distinct users `A` and `B` and a list owned by `A`, the five
scoped operations called by `B` against that list id all return their
not-found result (`none`, `false`, `(none, false)`), never a success and
never a distinct "forbidden" value, and leave both tables unchanged.
`huniq` is the `list_id SERIAL PRIMARY KEY` constraint restricted to this id. -/
theorem ownership_isolation (db : ListsDB) (A B : String) (lid : Nat)
    (row : ListRow) (_hrow : row ∈ db.lists) (_hid : row.list_id = lid)
    (_hownerA : row.user_id = A)
    (huniq : ∀ r ∈ db.lists, r.list_id = lid → r.user_id = A)
    (hAB : A ≠ B) (nn s : String) (hnn : jsTrim nn ≠ "") (hs : s ≠ "") :
    getStationListDetails db B lid = none ∧
    updateStationListName db B lid nn = .ok (db, none) ∧
    deleteStationList db B lid = (db, false) ∧
    addStationToList db B lid s = .ok (db, none) ∧
    removeStationFromList db B lid s = .ok (db, (none, false)) := by
  have hfilter := no_owned_row_filter db A B lid huniq hAB
  have hdet : getStationListDetails db B lid = none := by
    unfold getStationListDetails
    rw [hfilter]
  refine ⟨hdet, ?_, ?_, ?_, ?_⟩
  · unfold updateStationListName
    rw [if_neg hnn, hfilter]
    have hmap : (db.lists.map fun r =>
        if r.list_id == lid && r.user_id == B
        then { r with list_name := jsTrim nn } else r) = db.lists := by
      have hall : ∀ r ∈ db.lists,
          (if r.list_id == lid && r.user_id == B
           then ({ r with list_name := jsTrim nn } : ListRow) else r) = id r := by
        intro r hr
        rw [List.filter_eq_nil_iff] at hfilter
        simp only [id]
        rw [if_neg]
        simpa using hfilter r hr
      rw [List.map_congr_left hall, List.map_id]
    rw [hmap]
  · unfold deleteStationList
    simp only [hfilter, List.map_nil, List.length_nil]
    rw [filter_not_of_filter_nil _ _ hfilter]
    simp
  · unfold addStationToList
    rw [if_neg hs, hfilter]
    simp
  · unfold removeStationFromList
    rw [if_neg hs, hdet]

/-- Witness for C2 at a concrete input: a single list (id 1) owned by `"A"`
with one member station, queried by `"B"`. -/
theorem ownership_isolation_witness :
    getStationListDetails ⟨[⟨1, "A", "Jazz", 0⟩], [⟨1, "x"⟩]⟩ "B" 1 = none ∧
    updateStationListName ⟨[⟨1, "A", "Jazz", 0⟩], [⟨1, "x"⟩]⟩ "B" 1 "Rock"
      = .ok (⟨[⟨1, "A", "Jazz", 0⟩], [⟨1, "x"⟩]⟩, none) ∧
    deleteStationList ⟨[⟨1, "A", "Jazz", 0⟩], [⟨1, "x"⟩]⟩ "B" 1
      = (⟨[⟨1, "A", "Jazz", 0⟩], [⟨1, "x"⟩]⟩, false) ∧
    addStationToList ⟨[⟨1, "A", "Jazz", 0⟩], [⟨1, "x"⟩]⟩ "B" 1 "y"
      = .ok (⟨[⟨1, "A", "Jazz", 0⟩], [⟨1, "x"⟩]⟩, none) ∧
    removeStationFromList ⟨[⟨1, "A", "Jazz", 0⟩], [⟨1, "x"⟩]⟩ "B" 1 "x"
      = .ok (⟨[⟨1, "A", "Jazz", 0⟩], [⟨1, "x"⟩]⟩, (none, false)) :=
  ownership_isolation ⟨[⟨1, "A", "Jazz", 0⟩], [⟨1, "x"⟩]⟩ "A" "B" 1
    ⟨1, "A", "Jazz", 0⟩ (by simp) rfl rfl
    (by intro r hr _; simp at hr; simp [hr])
    (by decide) "Rock" "y" (by decide) (by decide)

/-- C7: `deleteStationList` returns `true` iff a list with that id owned by
the caller existed (and was deleted); after a successful delete the cascade
has removed every membership row of that list id, and a subsequent
`getStationListDetails` for the id returns `none`. -/
theorem deleteStationList_cascade (db : ListsDB) (u : String) (lid : Nat) :
    ((deleteStationList db u lid).2 = true ↔
      ∃ r ∈ db.lists, r.list_id = lid ∧ r.user_id = u) ∧
    ((deleteStationList db u lid).2 = true →
      ∀ it ∈ (deleteStationList db u lid).1.items, it.list_id ≠ lid) ∧
    getStationListDetails (deleteStationList db u lid).1 u lid = none := by
  refine ⟨?_, ?_, ?_⟩
  · unfold deleteStationList
    simp only [decide_eq_true_eq, List.length_pos_iff_exists_mem]
    constructor
    · rintro ⟨r, hr⟩
      have := List.mem_filter.mp hr
      refine ⟨r, this.1, ?_⟩
      simpa using this.2
    · rintro ⟨r, hr, h1, h2⟩
      exact ⟨r, List.mem_filter.mpr ⟨hr, by simp [h1, h2]⟩⟩
  · intro hsucc it hit
    unfold deleteStationList at hsucc hit
    simp only [decide_eq_true_eq, List.length_pos_iff_exists_mem] at hsucc
    obtain ⟨r, hr⟩ := hsucc
    have hrin := List.mem_filter.mp hr
    have hlid : r.list_id = lid := by
      have h2 := hrin.2
      simp at h2
      exact h2.1
    have hmem : lid ∈ (db.lists.filter fun q =>
        q.list_id == lid && q.user_id == u).map (·.list_id) := by
      nth_rewrite 2 [← hlid]
      exact List.mem_map_of_mem _ hr
    intro heq
    have hnot := (List.mem_filter.mp hit).2
    rw [heq, Bool.not_eq_true'] at hnot
    have hcon : ((db.lists.filter fun q => q.list_id == lid && q.user_id == u).map
        (·.list_id)).contains lid = true := List.elem_eq_true_of_mem hmem
    rw [hcon] at hnot
    cases hnot
  · unfold getStationListDetails
    rw [show (deleteStationList db u lid).1.lists
        = db.lists.filter (fun r => !(r.list_id == lid && r.user_id == u)) from rfl,
      filter_not_then_filter]

/-- Witness for C7 at a concrete input: list 1 owned by `"u"` with one member,
plus an unrelated membership row for list 2. -/
theorem deleteStationList_cascade_witness :
    ((deleteStationList ⟨[⟨1, "u", "Jazz", 0⟩], [⟨1, "x"⟩, ⟨2, "y"⟩]⟩ "u" 1).2 = true ↔
      ∃ r ∈ [(⟨1, "u", "Jazz", 0⟩ : ListRow)], r.list_id = 1 ∧ r.user_id = "u") ∧
    ((deleteStationList ⟨[⟨1, "u", "Jazz", 0⟩], [⟨1, "x"⟩, ⟨2, "y"⟩]⟩ "u" 1).2 = true →
      ∀ it ∈ (deleteStationList ⟨[⟨1, "u", "Jazz", 0⟩],
          [⟨1, "x"⟩, ⟨2, "y"⟩]⟩ "u" 1).1.items, it.list_id ≠ 1) ∧
    getStationListDetails
      (deleteStationList ⟨[⟨1, "u", "Jazz", 0⟩], [⟨1, "x"⟩, ⟨2, "y"⟩]⟩ "u" 1).1 "u" 1
      = none :=
  deleteStationList_cascade ⟨[⟨1, "u", "Jazz", 0⟩], [⟨1, "x"⟩, ⟨2, "y"⟩]⟩ "u" 1

/-- C8: a successful `updateStationListName` sets the name of the targeted
list to the trimmed new name and changes nothing else: the membership table
is untouched, the list table keeps its length, and row by row the id, owner
and creation time are unchanged while only rows matching `(listId, userId)`
get the new trimmed name.  The stored-name invariant (every list name is a
non-empty trimmed string) is preserved, and `createStationList` establishes
it by storing the trimmed, non-empty name. -/
theorem updateStationListName_frame (db : ListsDB) (u : String) (lid : Nat)
    (nn : String) (db' : ListsDB) (view : StationList)
    (hnn : jsTrim nn ≠ "")
    (hsucc : updateStationListName db u lid nn = .ok (db', some view)) :
    view.name = jsTrim nn ∧
    db'.items = db.items ∧
    db'.lists.length = db.lists.length ∧
    (∀ i (hi : i < db.lists.length) (hi' : i < db'.lists.length),
      (db'.lists[i].list_id = db.lists[i].list_id ∧
       db'.lists[i].user_id = db.lists[i].user_id ∧
       db'.lists[i].created_at = db.lists[i].created_at) ∧
      db'.lists[i].list_name =
        (if db.lists[i].list_id = lid ∧ db.lists[i].user_id = u
         then jsTrim nn else db.lists[i].list_name)) ∧
    ((∀ r ∈ db.lists, IsTrimmed r.list_name ∧ r.list_name ≠ "") →
      ∀ r ∈ db'.lists, IsTrimmed r.list_name ∧ r.list_name ≠ "") ∧
    (∀ (db2 : ListsDB) (newId ca : Nat) (u2 ln : String) (db3 : ListsDB)
        (v : StationList), createStationList db2 newId ca u2 ln = .ok (db3, v) →
      v.name = jsTrim ln ∧ v.name ≠ "" ∧ IsTrimmed v.name ∧
      ((∀ r ∈ db2.lists, IsTrimmed r.list_name ∧ r.list_name ≠ "") →
        ∀ r ∈ db3.lists, IsTrimmed r.list_name ∧ r.list_name ≠ "")) := by
  unfold updateStationListName at hsucc
  rw [if_neg hnn] at hsucc
  have hdb' : db' = { db with lists := db.lists.map fun r =>
      if r.list_id == lid && r.user_id == u
      then { r with list_name := jsTrim nn } else r } := by
    cases hm : db.lists.filter (fun r => r.list_id == lid && r.user_id == u) with
    | nil => rw [hm] at hsucc; simp at hsucc
    | cons row t =>
      rw [hm] at hsucc
      simp only [Except.ok.injEq, Prod.mk.injEq] at hsucc
      exact hsucc.1.symm
  have hview : view.name = jsTrim nn := by
    cases hm : db.lists.filter (fun r => r.list_id == lid && r.user_id == u) with
    | nil => rw [hm] at hsucc; simp at hsucc
    | cons row t =>
      rw [hm] at hsucc
      simp only [Except.ok.injEq, Prod.mk.injEq, Option.some.injEq] at hsucc
      rw [← hsucc.2]
  subst hdb'
  refine ⟨hview, rfl, by simp, ?_, ?_, ?_⟩
  · intro i hi hi'
    simp only [List.getElem_map]
    by_cases hc : (db.lists[i].list_id == lid && db.lists[i].user_id == u) = true
    · have hc' : db.lists[i].list_id = lid ∧ db.lists[i].user_id = u := by
        simpa using hc
      rw [if_pos hc, if_pos hc']
      exact ⟨⟨rfl, rfl, rfl⟩, rfl⟩
    · have hc' : ¬(db.lists[i].list_id = lid ∧ db.lists[i].user_id = u) := by
        simpa using hc
      rw [if_neg hc, if_neg hc']
      exact ⟨⟨rfl, rfl, rfl⟩, rfl⟩
  · intro hinv r hr
    simp only [List.mem_map] at hr
    obtain ⟨r0, hr0, hr0eq⟩ := hr
    by_cases hc : (r0.list_id == lid && r0.user_id == u) = true
    · rw [if_pos hc] at hr0eq
      rw [← hr0eq]
      exact ⟨jsTrim_isTrimmed nn, hnn⟩
    · rw [if_neg hc] at hr0eq
      rw [← hr0eq]
      exact hinv r0 hr0
  · intro db2 newId ca u2 ln db3 v hcr
    unfold createStationList at hcr
    by_cases hln : jsTrim ln = ""
    · rw [if_pos hln] at hcr; cases hcr
    · rw [if_neg hln] at hcr
      simp only [Except.ok.injEq, Prod.mk.injEq] at hcr
      obtain ⟨hdb3, hv⟩ := hcr
      refine ⟨by rw [← hv], by rw [← hv]; exact hln, by rw [← hv]; exact jsTrim_isTrimmed ln, ?_⟩
      intro hinv r hr
      rw [← hdb3] at hr
      simp only [List.mem_append, List.mem_singleton] at hr
      rcases hr with hr | hr
      · exact hinv r hr
      · rw [hr]
        exact ⟨jsTrim_isTrimmed ln, hln⟩

/-- Witness for C8: renaming list 1 of user `"u"` to `" Rock "` stores the
trimmed name `"Rock"` and leaves everything else unchanged. -/
theorem updateStationListName_frame_witness :
    (StationList.name ⟨1, "Rock", 0, ["x"]⟩ = jsTrim " Rock ") ∧
    (ListsDB.items ⟨[⟨1, "u", "Rock", 0⟩], [⟨1, "x"⟩]⟩
      = ListsDB.items ⟨[⟨1, "u", "Jazz", 0⟩], [⟨1, "x"⟩]⟩) ∧
    (ListsDB.lists ⟨[⟨1, "u", "Rock", 0⟩], [⟨1, "x"⟩]⟩).length
      = (ListsDB.lists ⟨[⟨1, "u", "Jazz", 0⟩], [⟨1, "x"⟩]⟩).length ∧
    (∀ i (_hi : i < (ListsDB.lists ⟨[⟨1, "u", "Jazz", 0⟩], [⟨1, "x"⟩]⟩).length)
        (_hi' : i < (ListsDB.lists ⟨[⟨1, "u", "Rock", 0⟩], [⟨1, "x"⟩]⟩).length),
      ((ListsDB.lists ⟨[⟨1, "u", "Rock", 0⟩], [⟨1, "x"⟩]⟩)[i].list_id
          = (ListsDB.lists ⟨[⟨1, "u", "Jazz", 0⟩], [⟨1, "x"⟩]⟩)[i].list_id ∧
       (ListsDB.lists ⟨[⟨1, "u", "Rock", 0⟩], [⟨1, "x"⟩]⟩)[i].user_id
          = (ListsDB.lists ⟨[⟨1, "u", "Jazz", 0⟩], [⟨1, "x"⟩]⟩)[i].user_id ∧
       (ListsDB.lists ⟨[⟨1, "u", "Rock", 0⟩], [⟨1, "x"⟩]⟩)[i].created_at
          = (ListsDB.lists ⟨[⟨1, "u", "Jazz", 0⟩], [⟨1, "x"⟩]⟩)[i].created_at) ∧
      (ListsDB.lists ⟨[⟨1, "u", "Rock", 0⟩], [⟨1, "x"⟩]⟩)[i].list_name =
        (if (ListsDB.lists ⟨[⟨1, "u", "Jazz", 0⟩], [⟨1, "x"⟩]⟩)[i].list_id = 1 ∧
            (ListsDB.lists ⟨[⟨1, "u", "Jazz", 0⟩], [⟨1, "x"⟩]⟩)[i].user_id = "u"
         then jsTrim " Rock "
         else (ListsDB.lists ⟨[⟨1, "u", "Jazz", 0⟩], [⟨1, "x"⟩]⟩)[i].list_name)) ∧
    ((∀ r ∈ ListsDB.lists ⟨[⟨1, "u", "Jazz", 0⟩], [⟨1, "x"⟩]⟩,
        IsTrimmed r.list_name ∧ r.list_name ≠ "") →
      ∀ r ∈ ListsDB.lists ⟨[⟨1, "u", "Rock", 0⟩], [⟨1, "x"⟩]⟩,
        IsTrimmed r.list_name ∧ r.list_name ≠ "") ∧
    (∀ (db2 : ListsDB) (newId ca : Nat) (u2 ln : String) (db3 : ListsDB)
        (v : StationList), createStationList db2 newId ca u2 ln = .ok (db3, v) →
      v.name = jsTrim ln ∧ v.name ≠ "" ∧ IsTrimmed v.name ∧
      ((∀ r ∈ db2.lists, IsTrimmed r.list_name ∧ r.list_name ≠ "") →
        ∀ r ∈ db3.lists, IsTrimmed r.list_name ∧ r.list_name ≠ "")) :=
  updateStationListName_frame ⟨[⟨1, "u", "Jazz", 0⟩], [⟨1, "x"⟩]⟩ "u" 1 " Rock "
    ⟨[⟨1, "u", "Rock", 0⟩], [⟨1, "x"⟩]⟩ ⟨1, "Rock", 0, ["x"]⟩
    (by decide) (by rfl)

theorem favRow_pred_iff (r : FavRow) (u s : String) :
    ((r.user_id == u && r.stationuuid == s) = true) ↔ r = ⟨u, s⟩ := by
  rcases r with ⟨ru, ruuid⟩
  simp [FavRow.mk.injEq]

theorem itemRow_pred_iff (it : ItemRow) (lid : Nat) (s : String) :
    ((it.list_id == lid && it.stationuuid == s) = true) ↔ it = ⟨lid, s⟩ := by
  rcases it with ⟨ilid, iuuid⟩
  simp [ItemRow.mk.injEq]

/-- C4: removing an absent favorite succeeds (no store error), reports
`success = false`, and returns the unchanged current list; in general the
success flag is true iff a row was actually deleted.  Likewise
`removeStationFromList` on an owned list whose membership lacks the station
succeeds with `removed = false` and the unchanged resolved list. -/
theorem remove_absent_noop (db : FavDB) (u s : String) (hs : s ≠ "")
    (habs : (⟨u, s⟩ : FavRow) ∉ db)
    (ldb : ListsDB) (lu ls : String) (lid : Nat) (hls : ls ≠ "")
    (hdet : (getStationListDetails ldb lu lid).isSome = true)
    (hlabs : (⟨lid, ls⟩ : ItemRow) ∉ ldb.items) :
    removeFavorite false false db u s
      = .ok (db, ⟨selectFavorites db u, false⟩) ∧
    (∀ (db2 db' : FavDB) (res : RemoveFavoriteResult),
      removeFavorite false false db2 u s = .ok (db', res) →
      (res.success = true ↔ (⟨u, s⟩ : FavRow) ∈ db2)) ∧
    removeStationFromList ldb lu lid ls
      = .ok (ldb, (getStationListDetails ldb lu lid, false)) := by
  have hfilnil : db.filter (fun r => r.user_id == u && r.stationuuid == s) = [] := by
    rw [List.filter_eq_nil_iff]
    intro r hr hpred
    exact habs ((favRow_pred_iff r u s).mp hpred ▸ hr)
  refine ⟨?_, ?_, ?_⟩
  · unfold removeFavorite deleteFavorite getFavorites
    rw [if_neg hs]
    simp only [hfilnil, List.length_nil, filter_not_of_filter_nil _ _ hfilnil]
    simp
  · intro db2 db' res h
    unfold removeFavorite deleteFavorite getFavorites at h
    rw [if_neg hs] at h
    simp only [Bool.false_eq_true, if_false, Except.ok.injEq, Prod.mk.injEq] at h
    rw [← h.2]
    simp only [decide_eq_true_eq, gt_iff_lt, List.length_pos_iff_exists_mem]
    constructor
    · rintro ⟨a, ha⟩
      have h2 := List.mem_filter.mp ha
      exact (favRow_pred_iff a u s).mp h2.2 ▸ h2.1
    · intro hmem
      exact ⟨⟨u, s⟩, List.mem_filter.mpr ⟨hmem, (favRow_pred_iff _ u s).mpr rfl⟩⟩
  · cases hd : getStationListDetails ldb lu lid with
    | none => rw [hd] at hdet; cases hdet
    | some d =>
      have hitnil : ldb.items.filter
          (fun it => it.list_id == lid && it.stationuuid == ls) = [] := by
        rw [List.filter_eq_nil_iff]
        intro it hit hpred
        exact hlabs ((itemRow_pred_iff it lid ls).mp hpred ▸ hit)
      unfold removeStationFromList
      rw [if_neg hls, hd]
      simp only [hitnil, List.length_nil, filter_not_of_filter_nil _ _ hitnil]
      have heta : ({ lists := ldb.lists, items := ldb.items } : ListsDB) = ldb := rfl
      rw [heta, hd]
      rfl

/-- Witness for C4: user `"u"` has favorite `"a"`; removing absent `"s1"` is
a flagged no-op, and removing absent `"zz"` from owned list 1 likewise. -/
theorem remove_absent_noop_witness :
    removeFavorite false false [⟨"u", "a"⟩] "u" "s1"
      = .ok ([⟨"u", "a"⟩], ⟨selectFavorites [⟨"u", "a"⟩] "u", false⟩) ∧
    (∀ (db2 db' : FavDB) (res : RemoveFavoriteResult),
      removeFavorite false false db2 "u" "s1" = .ok (db', res) →
      (res.success = true ↔ (⟨"u", "s1"⟩ : FavRow) ∈ db2)) ∧
    removeStationFromList ⟨[⟨1, "u", "Jazz", 0⟩], [⟨1, "x"⟩]⟩ "u" 1 "zz"
      = .ok (⟨[⟨1, "u", "Jazz", 0⟩], [⟨1, "x"⟩]⟩,
             (getStationListDetails ⟨[⟨1, "u", "Jazz", 0⟩], [⟨1, "x"⟩]⟩ "u" 1,
              false)) :=
  remove_absent_noop [⟨"u", "a"⟩] "u" "s1" (by decide) (by decide)
    ⟨[⟨1, "u", "Jazz", 0⟩], [⟨1, "x"⟩]⟩ "u" "zz" 1 (by decide) (by rfl) (by decide)

/-! ## Live-station cache (`radioBrowserService.ts`)

`getStations` consults a Redis cache keyed by the normalized
`(limit, name, tag)` filters, falls back to the Radio-Browser HTTP API, and
stores successful API responses with a fixed 1-hour expiry.  Redis entries
hold `JSON.stringify`ed station arrays; since `JSON.parse ∘ JSON.stringify`
round-trips these records, the model stores the parsed station list itself.
The ioredis connection `status` is the string the code compares against.
The directory call is an environment function from the structured request
(the query parameters appended to the search URL) to a result or a network
error. -/

/-- A station record as declared by the service's `Station` interface.  The
service never computes with the fields — records pass through the cache and
the HTTP layer opaquely — so JSON numbers are abstracted as integers
(`Option Int` for the nullable ones) and the untyped `iso_3166_2` field as an
optional string. -/
structure Station where
  changeuuid : String
  stationuuid : String
  serveruuid : String
  name : String
  url : String
  url_resolved : String
  homepage : String
  favicon : String
  tags : String
  country : String
  countrycode : String
  iso_3166_2 : Option String
  state : String
  language : String
  languagecodes : String
  votes : Int
  lastchangetime : String
  lastchangetime_iso8601 : String
  codec : String
  bitrate : Int
  hls : Int
  lastcheckok : Int
  lastchecktime : String
  lastchecktime_iso8601 : String
  lastcheckoktime : String
  lastcheckoktime_iso8601 : String
  lastlocalchecktime : String
  lastlocalchecktime_iso8601 : String
  clicktimestamp : String
  clicktimestamp_iso8601 : String
  clickcount : Int
  clicktrend : Int
  ssl_error : Int
  geo_lat : Option Int
  geo_long : Option Int
  has_extended_info : Bool
deriving DecidableEq, Repr

/-- `CACHE_EXPIRATION_SECONDS = 3600` — the fixed 1-hour expiry. -/
def CACHE_EXPIRATION_SECONDS : Nat := 3600

/-- A live Redis entry: key, parsed stored value, absolute expiry instant. -/
structure RedisEntry where
  key : String
  value : List Station
  expiresAt : Nat
deriving DecidableEq, Repr

/-- The Redis client as the service sees it: the ioredis `status` string, the
stored entries, and whether the backend errors on `GET` / `SET`. -/
structure RedisState where
  status : String
  entries : List RedisEntry
  getFails : Bool
  setFails : Bool
deriving DecidableEq, Repr

/-- `redisClient.get(key)` at time `now`: a backend error, or the stored
value when an entry under the key has not yet expired. -/
def redisGet (r : RedisState) (now : Nat) (key : String) :
    Except Unit (Option (List Station)) :=
  if r.getFails then .error ()
  else .ok ((r.entries.find? fun e =>
      e.key == key && decide (now < e.expiresAt)).map (·.value))

/-- `redisClient.set(key, value, 'EX', ttl)` at time `now`: a backend error,
or the state holding the new entry with absolute expiry `now + ttl`. -/
def redisSet (r : RedisState) (now : Nat) (key : String)
    (value : List Station) (ttl : Nat) : Except Unit RedisState :=
  if r.setFails then .error ()
  else .ok { r with entries :=
      ⟨key, value, now + ttl⟩ :: r.entries.filter fun e => !(e.key == key) }

/-- The query parameters of the Radio-Browser search URL built by
`getStations`: the limit is always appended; `name` / `tag` are appended only
when truthy (present and non-empty). -/
structure ApiRequest where
  limit : Nat
  name : Option String
  tag : Option String
deriving DecidableEq, Repr

/-- JavaScript truthiness of an optional string parameter: `undefined` and
`""` are falsy. -/
def truthyOpt (o : Option String) : Option String :=
  match o with
  | none => none
  | some s => if s = "" then none else some s

/-- The cache key
`radioStations:limit=${limit}:name=${name || ''}:tag=${tag || ''}` with the
parameter default `limit = 100`. -/
def mkCacheKey (limit : Option Nat) (name tag : Option String) : String :=
  "radioStations:limit=" ++ toString (limit.getD 100) ++
    ":name=" ++ name.getD "" ++ ":tag=" ++ tag.getD ""

/-- The directory request `getStations` issues for the given caller
parameters. -/
def mkApiRequest (limit : Option Nat) (name tag : Option String) : ApiRequest :=
  ⟨limit.getD 100, truthyOpt name, truthyOpt tag⟩

/-- `redisClient.status === 'ready' || ... === 'connecting' || ...
=== 'reconnecting'` — the statuses under which the cache `GET` is attempted. -/
def statusAllowsGet (st : String) : Bool :=
  st == "ready" || st == "connecting" || st == "reconnecting"

/-- What one `getStations` call produced: the value returned (or the thrown
directory error), the Redis state afterwards, and which steps ran. -/
structure GetStationsOutcome where
  result : Except String (List Station)
  redis : RedisState
  getAttempted : Bool
  apiCalled : Bool
  setAttempted : Bool
deriving Repr

/-- `getStations(limit = 100, name?, tag?)`: try the cache when the client
status allows it (a `GET` error falls through to the API); on a miss call the
directory, and on a successful response store it with the 1-hour expiry —
but only when the status is exactly `'ready'`, and a `SET` error is logged
and swallowed.  A directory failure is rethrown as the service's error. -/
def getStations (r : RedisState) (now : Nat)
    (api : ApiRequest → Except Unit (List Station))
    (limit : Option Nat) (name tag : Option String) : GetStationsOutcome :=
  let cacheKey := mkCacheKey limit name tag
  let getAttempted := statusAllowsGet r.status
  let hit : Option (List Station) :=
    if getAttempted then
      match redisGet r now cacheKey with
      | .error _ => none
      | .ok v => v
    else none
  match hit with
  | some cached => ⟨.ok cached, r, getAttempted, false, false⟩
  | none =>
    match api (mkApiRequest limit name tag) with
    | .error _ =>
      ⟨.error "Failed to fetch stations from Radio-Browser API.", r,
       getAttempted, true, false⟩
    | .ok stationsData =>
      if r.status == "ready" then
        match redisSet r now cacheKey stationsData CACHE_EXPIRATION_SECONDS with
        | .error _ => ⟨.ok stationsData, r, getAttempted, true, true⟩
        | .ok r2 => ⟨.ok stationsData, r2, getAttempted, true, true⟩
      else ⟨.ok stationsData, r, getAttempted, true, false⟩

theorem getStations_miss (r : RedisState) (now : Nat)
    (api : ApiRequest → Except Unit (List Station)) (l : Option Nat)
    (n t : Option String)
    (hmiss : statusAllowsGet r.status = false ∨ r.getFails = true ∨
      (r.entries.find? fun e => e.key == mkCacheKey l n t &&
        decide (now < e.expiresAt)) = none) :
    (getStations r now api l n t).result =
      (match api (mkApiRequest l n t) with
       | .ok v => .ok v
       | .error _ => .error "Failed to fetch stations from Radio-Browser API.") ∧
    (getStations r now api l n t).apiCalled = true := by
  have hhit : (if statusAllowsGet r.status then
      match redisGet r now (mkCacheKey l n t) with
      | .error _ => none
      | .ok v => v
      else none) = (none : Option (List Station)) := by
    rcases hmiss with h | h | h
    · simp [h]
    · simp [redisGet, h]
    · by_cases hga : statusAllowsGet r.status = true
      · by_cases hgf : r.getFails = true
        · simp [hga, redisGet, hgf]
        · simp only [Bool.not_eq_true] at hgf
          simp [hga, redisGet, hgf, h]
      · simp only [Bool.not_eq_true] at hga
        simp [hga]
  simp only [getStations]
  rw [hhit]
  cases hapi : api (mkApiRequest l n t) with
  | error u => simp
  | ok v =>
    by_cases hready : (r.status == "ready") = true
    · simp only [hready, if_true]
      cases hset : redisSet r now (mkCacheKey l n t) v CACHE_EXPIRATION_SECONDS with
      | error u => simp
      | ok r2 => simp
    · simp only [Bool.not_eq_true] at hready
      simp [hready]

theorem getStations_hit (r : RedisState) (now : Nat)
    (api : ApiRequest → Except Unit (List Station)) (l : Option Nat)
    (n t : Option String) (e : RedisEntry)
    (hga : statusAllowsGet r.status = true) (hgf : r.getFails = false)
    (hfind : (r.entries.find? fun q => q.key == mkCacheKey l n t &&
      decide (now < q.expiresAt)) = some e) :
    getStations r now api l n t
      = ⟨.ok e.value, r, true, false, false⟩ := by
  simp only [getStations]
  have hhit : (if statusAllowsGet r.status then
      match redisGet r now (mkCacheKey l n t) with
      | .error _ => none
      | .ok v => v
      else none) = some e.value := by
    simp [hga, redisGet, hgf, hfind]
  rw [hhit]
  simp [hga]

/-- C3: the service call fails exactly when the directory call it issued
fails; a cache-backend `GET` failure degrades to a miss (the result is
exactly the directory outcome), and a cache-backend `SET` failure never
changes the result. -/
theorem getStations_error_iff_directory (r : RedisState) (now : Nat)
    (api : ApiRequest → Except Unit (List Station)) (l : Option Nat)
    (n t : Option String) :
    ((∃ msg, (getStations r now api l n t).result = .error msg) ↔
      ((getStations r now api l n t).apiCalled = true ∧
        ∃ u, api (mkApiRequest l n t) = .error u)) ∧
    ((getStations { r with getFails := true } now api l n t).result
      = (match api (mkApiRequest l n t) with
         | .ok v => .ok v
         | .error _ => .error "Failed to fetch stations from Radio-Browser API.")) ∧
    ((getStations { r with setFails := true } now api l n t).result
      = (getStations { r with setFails := false } now api l n t).result) := by
  refine ⟨?_, ?_, ?_⟩
  · by_cases hga : statusAllowsGet r.status = true
    · by_cases hgf : r.getFails = true
      · obtain ⟨hres, hcall⟩ := getStations_miss r now api l n t (.inr (.inl hgf))
        rw [hres, hcall]
        cases hapi : api (mkApiRequest l n t) <;> simp [hapi]
      · cases hfind : (r.entries.find? fun q => q.key == mkCacheKey l n t &&
            decide (now < q.expiresAt)) with
        | none =>
          obtain ⟨hres, hcall⟩ := getStations_miss r now api l n t (.inr (.inr hfind))
          rw [hres, hcall]
          cases hapi : api (mkApiRequest l n t) <;> simp [hapi]
        | some e =>
          rw [getStations_hit r now api l n t e hga (by simpa using hgf) hfind]
          simp
    · obtain ⟨hres, hcall⟩ :=
        getStations_miss r now api l n t (.inl (by simpa using hga))
      rw [hres, hcall]
      cases hapi : api (mkApiRequest l n t) <;> simp [hapi]
  · exact (getStations_miss { r with getFails := true } now api l n t
      (.inr (.inl rfl))).1
  · by_cases hga : statusAllowsGet r.status = true
    · by_cases hgf : r.getFails = true
      · rw [(getStations_miss { r with setFails := true } now api l n t
              (.inr (.inl hgf))).1,
            (getStations_miss { r with setFails := false } now api l n t
              (.inr (.inl hgf))).1]
      · cases hfind : (r.entries.find? fun q => q.key == mkCacheKey l n t &&
            decide (now < q.expiresAt)) with
        | none =>
          rw [(getStations_miss { r with setFails := true } now api l n t
                (.inr (.inr hfind))).1,
              (getStations_miss { r with setFails := false } now api l n t
                (.inr (.inr hfind))).1]
        | some e =>
          rw [getStations_hit { r with setFails := true } now api l n t e hga
                (by simpa using hgf) hfind,
              getStations_hit { r with setFails := false } now api l n t e hga
                (by simpa using hgf) hfind]
    · rw [(getStations_miss { r with setFails := true } now api l n t
            (.inl (by simpa using hga))).1,
          (getStations_miss { r with setFails := false } now api l n t
            (.inl (by simpa using hga))).1]

theorem getStations_getAttempted_eq (r : RedisState) (now : Nat)
    (api : ApiRequest → Except Unit (List Station)) (l : Option Nat)
    (n t : Option String) :
    (getStations r now api l n t).getAttempted = statusAllowsGet r.status := by
  simp only [getStations]
  split
  · rfl
  · split
    · rfl
    · split
      · split <;> rfl
      · rfl

theorem getStations_setAttempted_ready (r : RedisState) (now : Nat)
    (api : ApiRequest → Except Unit (List Station)) (l : Option Nat)
    (n t : Option String) :
    (getStations r now api l n t).setAttempted = true → r.status = "ready" := by
  simp only [getStations]
  split
  · simp
  · split
    · simp
    · split
      · next hready =>
          have hst : r.status = "ready" := by simpa using hready
          split <;> simp [hst]
      · simp

theorem getStations_redis_unchanged (r : RedisState) (now : Nat)
    (api : ApiRequest → Except Unit (List Station)) (l : Option Nat)
    (n t : Option String) (h : r.status ≠ "ready") :
    (getStations r now api l n t).redis = r := by
  simp only [getStations]
  split
  · rfl
  · split
    · rfl
    · split
      · next hready => exact absurd (by simpa using hready) h
      · rfl

theorem getStations_api_ok (r : RedisState) (now : Nat)
    (api : ApiRequest → Except Unit (List Station)) (l : Option Nat)
    (n t : Option String) (v : List Station) :
    (getStations r now api l n t).apiCalled = true →
    api (mkApiRequest l n t) = .ok v →
    (getStations r now api l n t).result = .ok v := by
  simp only [getStations]
  split
  · intro h _
    simp at h
  · split
    · next u heq =>
        intro _ hapi
        rw [heq] at hapi
        simp at hapi
    · next sd heq =>
        intro _ hapi
        rw [heq] at hapi
        simp only [Except.ok.injEq] at hapi
        subst hapi
        split
        · split <;> rfl
        · rfl

/-- C10: the cache lookup is attempted exactly under the statuses `'ready'`,
`'connecting'` and `'reconnecting'`; the store step runs only under
`'ready'`; under every other status the Redis state is left untouched (a
value fetched while connecting/reconnecting is never written); and skipping
or failing the store never changes the value returned to the caller. -/
theorem getStations_store_policy (r : RedisState) (now : Nat)
    (api : ApiRequest → Except Unit (List Station)) (l : Option Nat)
    (n t : Option String) :
    (getStations r now api l n t).getAttempted
      = (r.status == "ready" || r.status == "connecting" ||
         r.status == "reconnecting") ∧
    ((getStations r now api l n t).setAttempted = true → r.status = "ready") ∧
    (r.status ≠ "ready" → (getStations r now api l n t).redis = r) ∧
    (∀ v, (getStations r now api l n t).apiCalled = true →
      api (mkApiRequest l n t) = .ok v →
      (getStations r now api l n t).result = .ok v) :=
  ⟨getStations_getAttempted_eq r now api l n t,
   getStations_setAttempted_ready r now api l n t,
   getStations_redis_unchanged r now api l n t,
   fun v => getStations_api_ok r now api l n t v⟩

/-- Witness for C10 at a concrete input: a connecting client and a directory
returning the empty list. -/
theorem getStations_store_policy_witness :
    (getStations ⟨"connecting", [], false, false⟩ 0 (fun _ => .ok []) none none
        none).getAttempted
      = (("connecting" : String) == "ready" || ("connecting" : String) == "connecting" ||
         ("connecting" : String) == "reconnecting") ∧
    ((getStations ⟨"connecting", [], false, false⟩ 0 (fun _ => .ok []) none none
        none).setAttempted = true → ("connecting" : String) = "ready") ∧
    (("connecting" : String) ≠ "ready" →
      (getStations ⟨"connecting", [], false, false⟩ 0 (fun _ => .ok []) none none
        none).redis = ⟨"connecting", [], false, false⟩) ∧
    (∀ v, (getStations ⟨"connecting", [], false, false⟩ 0 (fun _ => .ok []) none
        none none).apiCalled = true →
      (fun (_ : ApiRequest) => (.ok [] : Except Unit (List Station)))
          (mkApiRequest none none none) = .ok v →
      (getStations ⟨"connecting", [], false, false⟩ 0 (fun _ => .ok []) none none
        none).result = .ok v) :=
  getStations_store_policy ⟨"connecting", [], false, false⟩ 0 (fun _ => .ok [])
    none none none

/-- C5: the cache key is the normalized string of
`(limit, name ?? "", tag ?? "")` — two calls with the same effective filters
(e.g. `tag` omitted versus `tag = ""`) build the identical key — and an
unspecified `limit` behaves as the default 100 in the key, in the directory
request, and in the whole call. -/
theorem cacheKey_normalized (l : Option Nat) (n n' t t' : Option String)
    (hn : n.getD "" = n'.getD "") (ht : t.getD "" = t'.getD "") :
    mkCacheKey l n t = mkCacheKey l n' t' ∧
    mkCacheKey none n t = mkCacheKey (some 100) n t ∧
    (mkApiRequest none n t).limit = 100 ∧
    ∀ (r : RedisState) (now : Nat)
        (api : ApiRequest → Except Unit (List Station)),
      getStations r now api none n t = getStations r now api (some 100) n t := by
  refine ⟨?_, rfl, rfl, fun r now api => rfl⟩
  unfold mkCacheKey
  rw [hn, ht]

/-- Witness for C5 at a concrete input: `tag` omitted versus `tag = ""`. -/
theorem cacheKey_normalized_witness :
    mkCacheKey (some 50) (some "Jazz") none
      = mkCacheKey (some 50) (some "Jazz") (some "") ∧
    mkCacheKey none (some "Jazz") none
      = mkCacheKey (some 100) (some "Jazz") none ∧
    (mkApiRequest none (some "Jazz") none).limit = 100 ∧
    ∀ (r : RedisState) (now : Nat)
        (api : ApiRequest → Except Unit (List Station)),
      getStations r now api none (some "Jazz") none
        = getStations r now api (some 100) (some "Jazz") none :=
  cacheKey_normalized (some 50) (some "Jazz") (some "Jazz") none (some "")
    rfl rfl

/-- C6: after a first successful `getStations` call (ready backend, cache
miss) stores its result under the key with the fixed 1-hour expiry, a second
call with equivalent filters before the expiry is a cache hit: it returns
the stored list — equal to what the first call returned — and does not
invoke the directory again. -/
theorem cache_hit_within_ttl (r : RedisState) (now1 now2 : Nat)
    (api1 api2 : ApiRequest → Except Unit (List Station))
    (l1 l2 : Option Nat) (n1 n2 t1 t2 : Option String) (v : List Station)
    (hready : r.status = "ready") (hgf : r.getFails = false)
    (hsf : r.setFails = false)
    (hmiss : (r.entries.find? fun e => e.key == mkCacheKey l1 n1 t1 &&
      decide (now1 < e.expiresAt)) = none)
    (hapi : api1 (mkApiRequest l1 n1 t1) = .ok v)
    (hkey : mkCacheKey l1 n1 t1 = mkCacheKey l2 n2 t2)
    (httl : now2 < now1 + CACHE_EXPIRATION_SECONDS) :
    (getStations r now1 api1 l1 n1 t1).result = .ok v ∧
    (getStations r now1 api1 l1 n1 t1).apiCalled = true ∧
    (getStations r now1 api1 l1 n1 t1).redis.entries.head?
      = some ⟨mkCacheKey l1 n1 t1, v, now1 + CACHE_EXPIRATION_SECONDS⟩ ∧
    (getStations (getStations r now1 api1 l1 n1 t1).redis now2 api2 l2 n2
        t2).result = .ok v ∧
    (getStations (getStations r now1 api1 l1 n1 t1).redis now2 api2 l2 n2
        t2).apiCalled = false := by
  have hrun1 : getStations r now1 api1 l1 n1 t1 =
      ⟨.ok v,
       { r with entries :=
          ⟨mkCacheKey l1 n1 t1, v, now1 + CACHE_EXPIRATION_SECONDS⟩ ::
            r.entries.filter fun e => !(e.key == mkCacheKey l1 n1 t1) },
       true, true, true⟩ := by
    simp only [getStations]
    have hhit : (if statusAllowsGet r.status = true then
        match redisGet r now1 (mkCacheKey l1 n1 t1) with
        | .error _ => none
        | .ok w => w
        else none) = (none : Option (List Station)) := by
      simp [statusAllowsGet, hready, redisGet, hgf, hmiss]
    rw [hhit, hapi]
    simp [hready, redisSet, hsf, statusAllowsGet]
  have hfind2 : ((getStations r now1 api1 l1 n1 t1).redis.entries.find? fun q =>
      q.key == mkCacheKey l2 n2 t2 && decide (now2 < q.expiresAt))
      = some ⟨mkCacheKey l1 n1 t1, v, now1 + CACHE_EXPIRATION_SECONDS⟩ := by
    rw [hrun1]
    apply List.find?_cons_of_pos
    have hbeq : (mkCacheKey l1 n1 t1 == mkCacheKey l2 n2 t2) = true := by
      rw [hkey]
      exact beq_self_eq_true _
    simp [hbeq, httl]
  have hrun2 := getStations_hit (getStations r now1 api1 l1 n1 t1).redis now2
    api2 l2 n2 t2 ⟨mkCacheKey l1 n1 t1, v, now1 + CACHE_EXPIRATION_SECONDS⟩
    (by rw [hrun1]; simp [statusAllowsGet, hready])
    (by rw [hrun1]; exact hgf) hfind2
  refine ⟨by rw [hrun1], by rw [hrun1], by rw [hrun1]; rfl,
    by rw [hrun2], by rw [hrun2]⟩

/-- Witness for C6: `search(limit=50, name="Jazz")` twice within the TTL
(`tag` omitted, then `tag=""`); the directory answers only the first call. -/
theorem cache_hit_within_ttl_witness :
    (getStations ⟨"ready", [], false, false⟩ 0 (fun _ => .ok []) (some 50)
        (some "Jazz") none).result = .ok [] ∧
    (getStations ⟨"ready", [], false, false⟩ 0 (fun _ => .ok []) (some 50)
        (some "Jazz") none).apiCalled = true ∧
    (getStations ⟨"ready", [], false, false⟩ 0 (fun _ => .ok []) (some 50)
        (some "Jazz") none).redis.entries.head?
      = some ⟨mkCacheKey (some 50) (some "Jazz") none, [],
              0 + CACHE_EXPIRATION_SECONDS⟩ ∧
    (getStations (getStations ⟨"ready", [], false, false⟩ 0 (fun _ => .ok [])
        (some 50) (some "Jazz") none).redis 10 (fun _ => .error ()) (some 50)
        (some "Jazz") (some "")).result = .ok [] ∧
    (getStations (getStations ⟨"ready", [], false, false⟩ 0 (fun _ => .ok [])
        (some 50) (some "Jazz") none).redis 10 (fun _ => .error ()) (some 50)
        (some "Jazz") (some "")).apiCalled = false :=
  cache_hit_within_ttl ⟨"ready", [], false, false⟩ 0 10 (fun _ => .ok [])
    (fun _ => .error ()) (some 50) (some 50) (some "Jazz") (some "Jazz") none
    (some "") [] rfl rfl rfl rfl rfl rfl (by decide)
